import Mathlib

/-
Shallow embedding of src/source/os/windows/named-pipe.cpp
(xaymar named-pipe IPC, Windows backend).

Native OS calls (CreateNamedPipeW, CreateFileW, PeekNamedPipe,
ReadFileEx, WriteFileEx, DisconnectNamedPipe, CloseHandle) are modelled
by oracle structures carrying the values the OS would produce: the
boolean return of the call, the GetLastError value observed after it,
and any out-parameter bytes.  Handles are Nat, 0 standing for NULL.

A C++ control path that falls off the end of a non-void function has no
defined return value; such a result is modelled as `none` in an
`Option`-typed result, with a comment at the spot.
-/

namespace os

/-- The outcome enumeration os::error (shared by all operations). -/
inductive error
  | Success
  | MoreData
  | Disconnected
  | Error
  deriving DecidableEq, Repr

end os

/-- MAX_PATH on Windows. -/
def MAX_PATH : Nat := 260

/-- The macro MAX_PATH_MINUS_PREFIX from the source: (MAX_PATH - 9).
The name is shortened here; the value is the same. -/
def MAX_PATH_MINUS_9 : Nat := MAX_PATH - 9

/-- The longest name length that passes validation: the code rejects
name.length() ≥ MAX_PATH - 9, so the budget is MAX_PATH - 10. -/
def length_budget : Nat := MAX_PATH - 10

/-- PIPE_UNLIMITED_INSTANCES on Windows. -/
def PIPE_UNLIMITED_INSTANCES : Nat := 255

def ERROR_SUCCESS : Nat := 0
def ERROR_ACCESS_DENIED : Nat := 5
def ERROR_BROKEN_PIPE : Nat := 109
def ERROR_MORE_DATA : Nat := 234
def ERROR_IO_PENDING : Nat := 997

/-- C++ exceptions raised by the construction paths. -/
inductive cpp_error
  | invalid_argument (msg : String)
  | runtime_error (msg : String)
  deriving DecidableEq, Repr

/-- validate_create_param from the source: four guard clauses, checked
in order, each raising std::invalid_argument. -/
def validate_create_param (name : String) (max_instances : Nat) :
    Except String Unit :=
  if name.length = 0 then
    Except.error "name cannot be empty"
  else if name.length ≥ MAX_PATH_MINUS_9 then
    Except.error "name cannot be longer than MAX_PATH_MINUS_9 characters"
  else if max_instances = 0 then
    Except.error "max_instances cannot be zero"
  else if max_instances > PIPE_UNLIMITED_INSTANCES then
    Except.error "max_instances cannot be greater than PIPE_UNLIMITED_INSTANCES"
  else
    Except.ok ()

/-- validate_open_param from the source: only the two name checks. -/
def validate_open_param (name : String) : Except String Unit :=
  if name.length = 0 then
    Except.error "name cannot be empty"
  else if name.length ≥ MAX_PATH_MINUS_9 then
    Except.error "name cannot be longer than MAX_PATH_MINUS_9 characters"
  else
    Except.ok ()

/-- The in-place loop of make_windows_compatible: every backslash of the
string is replaced by a forward slash. -/
def replaceBackslashes (s : String) : String :=
  String.mk (s.data.map (fun c => if c = '\\' then '/' else c))

/-- The string literal prepended by make_windows_compatible. -/
def pipeNamespace : String := "\\\\.\\pipe\\"

/-- make_windows_compatible from the source: copy the name, replace
every backslash with a forward slash, prepend the pipe namespace. -/
def make_windows_compatible (name : String) : String :=
  pipeNamespace ++ replaceBackslashes name

/-- The native calls a construction or destruction path can make, with
the (already wide-encoded) name or handle passed to them.  A run of a
constructor or the destructor is summarized by the list of these calls
it performs, in order. -/
inductive OsCall
  | createNamedPipe (name : String)
  | createFile (name : String)
  | disconnectNamedPipe (h : Nat)
  | closeHandle (h : Nat)
  deriving DecidableEq, Repr

/-- Oracle for one CreateNamedPipeW call: the handle it yields (0 for
NULL / INVALID) and the GetLastError value observed right after it. -/
structure CreateResult where
  handle : Nat
  lastError : Nat
  deriving DecidableEq, Repr

/-- Oracle for one CreateFileW call. -/
structure OpenResult where
  handle : Nat
  lastError : Nat
  deriving DecidableEq, Repr

/-- create_logic from the source.  It stores the new handle and, on
failure (NULL handle or non-success last error), throws a runtime_error
carrying the native status.  Although declared `bool`, the function has
no return statement: on the success path the bool it returns is
undefined, modelled as `none`. -/
def create_logic (r : CreateResult) : Except cpp_error (Nat × Option Bool) :=
  if r.handle = 0 ∨ r.lastError ≠ ERROR_SUCCESS then
    Except.error (cpp_error.runtime_error "Creating Named Pipe failed")
  else
    Except.ok (r.handle, none)

/-- open_logic from the source: same shape as create_logic, over
CreateFileW with OPEN_EXISTING; also declared `bool` with no return
statement, so the returned bool is undefined (`none`). -/
def open_logic (r : OpenResult) : Except cpp_error (Nat × Option Bool) :=
  if r.handle = 0 ∨ r.lastError ≠ ERROR_SUCCESS then
    Except.error (cpp_error.runtime_error "Opening Named Pipe failed")
  else
    Except.ok (r.handle, none)

/-- The wide name every constructor builds: the raw name with a null
character appended (the source appends it before normalizing), then
made windows-compatible.  The wide-character encoding step itself is
the identity on our character model. -/
def wide_name (name : String) : String :=
  make_windows_compatible (name ++ "\x00")

/-- The create_only constructor: validate, normalize, create.  The
result is the trace of OS calls performed, paired with the handle the
endpoint ends up holding (or the exception thrown). -/
def named_pipe_create_only (name : String) (max_instances : Nat)
    (cr : CreateResult) : List OsCall × Except cpp_error Nat :=
  match validate_create_param name max_instances with
  | Except.error m => ([], Except.error (cpp_error.invalid_argument m))
  | Except.ok _ =>
    match create_logic cr with
    | Except.error e => ([OsCall.createNamedPipe (wide_name name)], Except.error e)
    | Except.ok (h, _) => ([OsCall.createNamedPipe (wide_name name)], Except.ok h)

/-- The create_or_open constructor.  The source runs
`if (!create_logic(handle, ...)) { open_logic(handle, ...); }`:
a thrown runtime_error from create_logic propagates (open_logic is not
reached), and on create success the bool tested is the undefined return
value of create_logic; `undef` stands for the value that that test reads. -/
def named_pipe_create_or_open (name : String) (max_instances : Nat)
    (cr : CreateResult) (opr : OpenResult) (undef : Bool) :
    List OsCall × Except cpp_error Nat :=
  match validate_create_param name max_instances with
  | Except.error m => ([], Except.error (cpp_error.invalid_argument m))
  | Except.ok _ =>
    match create_logic cr with
    | Except.error e => ([OsCall.createNamedPipe (wide_name name)], Except.error e)
    | Except.ok (h, _) =>
      if undef = false then
        match open_logic opr with
        | Except.error e =>
          ([OsCall.createNamedPipe (wide_name name),
            OsCall.createFile (wide_name name)], Except.error e)
        | Except.ok (h2, _) =>
          ([OsCall.createNamedPipe (wide_name name),
            OsCall.createFile (wide_name name)], Except.ok h2)
      else
        ([OsCall.createNamedPipe (wide_name name)], Except.ok h)

/-- The open_only constructor: validate the name only, normalize, open. -/
def named_pipe_open_only (name : String) (opr : OpenResult) :
    List OsCall × Except cpp_error Nat :=
  match validate_open_param name with
  | Except.error m => ([], Except.error (cpp_error.invalid_argument m))
  | Except.ok _ =>
    match open_logic opr with
    | Except.error e => ([OsCall.createFile (wide_name name)], Except.error e)
    | Except.ok (h, _) => ([OsCall.createFile (wide_name name)], Except.ok h)

/-- The destructor: if the handle is non-null, disconnect it from any
peer and then close it; otherwise do nothing. -/
def named_pipe_destructor (handle : Nat) : List OsCall :=
  if handle ≠ 0 then
    [OsCall.disconnectNamedPipe handle, OsCall.closeHandle handle]
  else
    []

/-- Oracle for one PeekNamedPipe call: the boolean return, the
GetLastError value after it, and the byte count the OS would store into
the requested out-parameter. -/
structure PeekResult where
  ok : Bool
  lastError : Nat
  bytes : Nat
  deriving DecidableEq, Repr

/-- named_pipe::available from the source, as a function of the peek
oracle and the prior value of the caller-supplied out-parameter
`avail`.  Returns the outcome together with the final value of `avail`.
On the success path the source stores the count into `avail` and then
falls off the end of the non-void function: there is no defined
os::error return value, modelled as `none`. -/
def named_pipe.available (r : PeekResult) (avail : Nat) : Option os.error × Nat :=
  if r.ok = false ∨ r.lastError ≠ ERROR_SUCCESS then
    if r.lastError = ERROR_BROKEN_PIPE then
      (some os.error.Disconnected, avail)
    else
      (some os.error.Error, avail)
  else
    (none, r.bytes)

/-- named_pipe::total_available from the source: identical control flow
to `named_pipe.available`, peeking the total buffered byte count instead of the
current-message byte count, with the same missing return on success. -/
def named_pipe.total_available (r : PeekResult) (avail : Nat) : Option os.error × Nat :=
  if r.ok = false ∨ r.lastError ≠ ERROR_SUCCESS then
    if r.lastError = ERROR_BROKEN_PIPE then
      (some os.error.Disconnected, avail)
    else
      (some os.error.Error, avail)
  else
    (none, r.bytes)

/-- Modelled from the spec: the async_request state visible to
named-pipe.cpp.  The class itself lives in named-pipe.hpp, which is not
among the source files; per the spec it carries a validity flag, true
once an operation has been submitted and not yet resolved or cancelled,
and a cancel operation that cancels the in-flight operation.  `valid`
is that flag; `cancelled` records whether cancel() has been invoked on
the in-flight operation. -/
structure async_request where
  valid : Bool
  cancelled : Bool
  deriving DecidableEq, Repr

/-- Modelled from the spec: a freshly constructed async_request has not
had any operation submitted, so its validity flag is false and nothing
has been cancelled. -/
def fresh_request : async_request :=
  { valid := false, cancelled := false }

/-- The request named_pipe::read / named_pipe.write starts from: the caller-passed
one if present, else a fresh one (the lazy construction at the top of
both methods). -/
def request_in (req : Option async_request) : async_request :=
  match req with
  | none => fresh_request
  | some q => q

/-- Oracle for one ReadFileEx / WriteFileEx submission: the boolean
return of the call and the GetLastError value observed after it. -/
structure SubmitResult where
  ok : Bool
  lastError : Nat
  deriving DecidableEq, Repr

/-- named_pipe::read from the source, as a function of the submission
oracle and the caller-supplied request.  Returns the outcome and the
request state afterwards.  set_handle does not change the modelled
state; set_valid(true) sets `valid`; request->cancel() sets
`cancelled`. -/
def named_pipe.read (req : Option async_request) (r : SubmitResult) :
    os.error × async_request :=
  let q := request_in req
  if r.ok = false ∨ r.lastError ≠ ERROR_SUCCESS then
    if r.lastError = ERROR_MORE_DATA then
      (os.error.MoreData, q)
    else if r.lastError = ERROR_BROKEN_PIPE then
      (os.error.Disconnected, q)
    else if r.lastError ≠ ERROR_IO_PENDING then
      (os.error.Error, { q with cancelled := true })
    else
      (os.error.Success, { q with valid := true })
  else
    (os.error.Success, { q with valid := true })

/-- named_pipe::write from the source: identical control flow to
`named_pipe.read`, over WriteFileEx. -/
def named_pipe.write (req : Option async_request) (r : SubmitResult) :
    os.error × async_request :=
  let q := request_in req
  if r.ok = false ∨ r.lastError ≠ ERROR_SUCCESS then
    if r.lastError = ERROR_MORE_DATA then
      (os.error.MoreData, q)
    else if r.lastError = ERROR_BROKEN_PIPE then
      (os.error.Disconnected, q)
    else if r.lastError ≠ ERROR_IO_PENDING then
      (os.error.Error, { q with cancelled := true })
    else
      (os.error.Success, { q with valid := true })
  else
    (os.error.Success, { q with valid := true })

/-- The four conditions validate_create_param rejects, phrased over the
length budget (the longest accepted name has MAX_PATH - 10
characters). -/
def create_args_invalid (name : String) (max_instances : Nat) : Prop :=
  name.length = 0 ∨ name.length > length_budget ∨
    max_instances = 0 ∨ max_instances > PIPE_UNLIMITED_INSTANCES

instance (name : String) (mi : Nat) : Decidable (create_args_invalid name mi) := by
  unfold create_args_invalid
  infer_instance

/-- True when a validation result is an argument error. -/
def isArgError (r : Except String Unit) : Bool :=
  match r with
  | Except.error _ => true
  | Except.ok _ => false

lemma replaceBackslashes_append (a b : String) :
    replaceBackslashes (a ++ b) = replaceBackslashes a ++ replaceBackslashes b := by
  cases a with
  | mk la =>
    cases b with
    | mk lb =>
      show replaceBackslashes (String.mk (la ++ lb)) = _
      simp [replaceBackslashes]
      rfl

lemma replaceBackslashes_idem (s : String) :
    replaceBackslashes (replaceBackslashes s) = replaceBackslashes s := by
  cases s with
  | mk l =>
    simp only [replaceBackslashes, List.map_map]
    congr 1
    induction l with
    | nil => rfl
    | cons c t ih =>
      simp only [List.map_cons, List.map_map] at *
      rw [ih]
      by_cases h : c = '\\'
      · simp [h, Function.comp]
      · simp [h, Function.comp]

/-- C6 counterexample: the full normalization of make_windows_compatible
is not idempotent; already at the one-character name "a" a second
application rewrites the backslashes of the prepended prefix. -/
theorem C6_normalization_not_idempotent :
    make_windows_compatible (make_windows_compatible "a") ≠
      make_windows_compatible "a" := by decide

/-- C6 (amended): the backslash-to-forward-slash replacement step of
make_windows_compatible is idempotent, but the full normalization is
not: a second application rewrites the backslashes of the prepended
pipe-namespace prefix, yielding the prefix, then "//./pipe/", then the
replaced name. -/
theorem C6_replacement_idempotent_double_norm_characterized (s : String) :
    replaceBackslashes (replaceBackslashes s) = replaceBackslashes s ∧
    make_windows_compatible (make_windows_compatible s) =
      pipeNamespace ++ ("//./pipe/" ++ replaceBackslashes s) := by
  refine ⟨replaceBackslashes_idem s, ?_⟩
  show pipeNamespace ++ replaceBackslashes (pipeNamespace ++ replaceBackslashes s) = _
  rw [replaceBackslashes_append, replaceBackslashes_idem]
  have hp : replaceBackslashes pipeNamespace = "//./pipe/" := by decide
  rw [hp]

/-- C9: the destructor performs exactly the disconnect-then-close pair,
in that order, when the handle is non-null, and performs no OS call at
all when the handle is null. -/
theorem C9_destructor_disconnect_then_close (h : Nat) :
    (h ≠ 0 → named_pipe_destructor h =
      [OsCall.disconnectNamedPipe h, OsCall.closeHandle h]) ∧
    (h = 0 → named_pipe_destructor h = []) := by
  constructor
  · intro hh
    simp [named_pipe_destructor, hh]
  · intro hh
    simp [named_pipe_destructor, hh]

/-- C9 witness: at the concrete handles 1 and 0 the two branches of the
destructor contract hold. -/
theorem C9_destructor_witness :
    named_pipe_destructor 1 =
      [OsCall.disconnectNamedPipe 1, OsCall.closeHandle 1] ∧
    named_pipe_destructor 0 = [] :=
  ⟨(C9_destructor_disconnect_then_close 1).1 (by decide),
   (C9_destructor_disconnect_then_close 0).2 rfl⟩

/-- C8: on a successful peek (nonzero return, last error ERROR_SUCCESS,
0 bytes buffered, as on a freshly connected empty endpoint) both
named_pipe.available and named_pipe.total_available do store the peeked count into the out
parameter (42 is overwritten by 0), but neither returns the Success
outcome: control falls off the end of the non-void function, so the
returned os::error is undefined (`none`), not `some Success`. -/
theorem C8_success_path_stores_count_but_return_undefined :
    named_pipe.available { ok := true, lastError := ERROR_SUCCESS, bytes := 0 } 42 =
      (none, 0) ∧
    named_pipe.total_available { ok := true, lastError := ERROR_SUCCESS, bytes := 0 } 42 =
      (none, 0) := by decide

/-- C10: whenever named_pipe.available or named_pipe.total_available returns the Disconnected
or the Error outcome, the caller-supplied out-parameter is left
unchanged; the peeked count is written only on the success path. -/
theorem C10_out_param_unchanged_on_failure (r : PeekResult) (a : Nat) :
    ((named_pipe.available r a).1 = some os.error.Disconnected ∨
        (named_pipe.available r a).1 = some os.error.Error →
      (named_pipe.available r a).2 = a) ∧
    ((named_pipe.total_available r a).1 = some os.error.Disconnected ∨
        (named_pipe.total_available r a).1 = some os.error.Error →
      (named_pipe.total_available r a).2 = a) := by
  unfold named_pipe.available named_pipe.total_available
  constructor <;> intro h <;> split_ifs at h ⊢ <;> simp_all

/-- C10 witness: a peek failing with ERROR_BROKEN_PIPE leaves the
out-parameter at its prior value 42 in both operations. -/
theorem C10_witness :
    (named_pipe.available { ok := false, lastError := 109, bytes := 7 } 42).2 = 42 ∧
    (named_pipe.total_available { ok := false, lastError := 109, bytes := 7 } 42).2 = 42 :=
  ⟨(C10_out_param_unchanged_on_failure
      { ok := false, lastError := 109, bytes := 7 } 42).1 (Or.inl (by decide)),
   (C10_out_param_unchanged_on_failure
      { ok := false, lastError := 109, bytes := 7 } 42).2 (Or.inl (by decide))⟩

/-- C4: a native ERROR_BROKEN_PIPE failure yields the Disconnected
outcome in all four operations, never the generic Error outcome. -/
theorem C4_broken_pipe_always_disconnected (pr : PeekResult)
    (sr : SubmitResult) (a : Nat) (req : Option async_request)
    (hp : pr.lastError = ERROR_BROKEN_PIPE)
    (hs : sr.lastError = ERROR_BROKEN_PIPE) :
    (named_pipe.available pr a).1 = some os.error.Disconnected ∧
    (named_pipe.total_available pr a).1 = some os.error.Disconnected ∧
    (named_pipe.read req sr).1 = os.error.Disconnected ∧
    (named_pipe.write req sr).1 = os.error.Disconnected := by
  simp [named_pipe.available, named_pipe.total_available, named_pipe.read, named_pipe.write, hp, hs,
        ERROR_BROKEN_PIPE, ERROR_SUCCESS, ERROR_MORE_DATA]

/-- C4 witness: at a concrete broken-pipe oracle all four operations
report Disconnected. -/
theorem C4_witness :
    (named_pipe.available { ok := false, lastError := 109, bytes := 0 } 0).1 =
      some os.error.Disconnected ∧
    (named_pipe.total_available { ok := false, lastError := 109, bytes := 0 } 0).1 =
      some os.error.Disconnected ∧
    (named_pipe.read none { ok := false, lastError := 109 }).1 =
      os.error.Disconnected ∧
    (named_pipe.write none { ok := false, lastError := 109 }).1 =
      os.error.Disconnected :=
  C4_broken_pipe_always_disconnected
    { ok := false, lastError := 109, bytes := 0 }
    { ok := false, lastError := 109 } 0 none (by decide) (by decide)

/-- C3: when the native submission fails with any status other than
ERROR_MORE_DATA, ERROR_BROKEN_PIPE and ERROR_IO_PENDING, both named_pipe.read and
named_pipe.write invoke request->cancel() and return Error, and the validity flag is
left exactly as it came in (set_valid is not invoked on that path). -/
theorem C3_error_path_cancels_request (req : Option async_request)
    (sr : SubmitResult)
    (hfail : sr.ok = false ∨ sr.lastError ≠ ERROR_SUCCESS)
    (hm : sr.lastError ≠ ERROR_MORE_DATA)
    (hb : sr.lastError ≠ ERROR_BROKEN_PIPE)
    (hq : sr.lastError ≠ ERROR_IO_PENDING) :
    named_pipe.read req sr =
      (os.error.Error, { request_in req with cancelled := true }) ∧
    named_pipe.write req sr =
      (os.error.Error, { request_in req with cancelled := true }) := by
  simp [named_pipe.read, named_pipe.write, hfail, hm, hb, hq]

/-- C3 witness: a submission failing with ERROR_ACCESS_DENIED (5) on a
caller-supplied request yields Error with the operation cancelled and
the validity flag untouched. -/
theorem C3_witness :
    named_pipe.read (some { valid := false, cancelled := false })
        { ok := false, lastError := 5 } =
      (os.error.Error, { valid := false, cancelled := true }) ∧
    named_pipe.write (some { valid := false, cancelled := false })
        { ok := false, lastError := 5 } =
      (os.error.Error, { valid := false, cancelled := true }) :=
  C3_error_path_cancels_request
    (some { valid := false, cancelled := false })
    { ok := false, lastError := 5 }
    (Or.inr (by decide)) (by decide) (by decide) (by decide)

/-- C2 counterexample: a read (or write) call whose submission completes
immediately with ERROR_MORE_DATA on a freshly created request returns
MoreData with the validity flag still false — not true as the claim
states: the early return skips set_valid(true). -/
theorem C2_more_data_validity_counterexample :
    (named_pipe.read none { ok := false, lastError := ERROR_MORE_DATA }).1 =
      os.error.MoreData ∧
    (named_pipe.read none { ok := false, lastError := ERROR_MORE_DATA }).2.valid =
      false ∧
    (named_pipe.write none { ok := false, lastError := ERROR_MORE_DATA }).1 =
      os.error.MoreData ∧
    (named_pipe.write none { ok := false, lastError := ERROR_MORE_DATA }).2.valid =
      false := by decide

/-- C2 (amended): on an immediate ERROR_MORE_DATA completion, named_pipe.read and
named_pipe.write return MoreData and leave the request state — in particular its
validity flag — exactly as it came in; set_valid(true) is not invoked
on that path, so the request is marked valid only if it already was. -/
theorem C2_more_data_leaves_validity_unchanged (req : Option async_request)
    (sr : SubmitResult)
    (_hfail : sr.ok = false ∨ sr.lastError ≠ ERROR_SUCCESS)
    (hm : sr.lastError = ERROR_MORE_DATA) :
    named_pipe.read req sr = (os.error.MoreData, request_in req) ∧
    named_pipe.write req sr = (os.error.MoreData, request_in req) := by
  simp [named_pipe.read, named_pipe.write, hm,
        ERROR_MORE_DATA, ERROR_SUCCESS]

/-- C2 witness: concrete ERROR_MORE_DATA submission on a request whose
validity flag is true keeps it true and returns MoreData. -/
theorem C2_witness :
    named_pipe.read (some { valid := true, cancelled := false })
        { ok := false, lastError := 234 } =
      (os.error.MoreData, { valid := true, cancelled := false }) ∧
    named_pipe.write (some { valid := true, cancelled := false })
        { ok := false, lastError := 234 } =
      (os.error.MoreData, { valid := true, cancelled := false }) :=
  C2_more_data_leaves_validity_unchanged
    (some { valid := true, cancelled := false })
    { ok := false, lastError := 234 }
    (Or.inr (by decide)) (by decide)

lemma validate_create_param_error_iff (name : String) (mi : Nat) :
    isArgError (validate_create_param name mi) = true ↔
      create_args_invalid name mi := by
  unfold isArgError validate_create_param create_args_invalid
    length_budget MAX_PATH_MINUS_9 MAX_PATH PIPE_UNLIMITED_INSTANCES
  split_ifs <;> simp_all <;> omega

lemma create_logic_cases (r : CreateResult) :
    create_logic r =
        Except.error (cpp_error.runtime_error "Creating Named Pipe failed") ∨
    create_logic r = Except.ok (r.handle, none) := by
  unfold create_logic
  split_ifs <;> simp

lemma open_logic_cases (r : OpenResult) :
    open_logic r =
        Except.error (cpp_error.runtime_error "Opening Named Pipe failed") ∨
    open_logic r = Except.ok (r.handle, none) := by
  unfold open_logic
  split_ifs <;> simp

/-- A construction result that is a thrown std::invalid_argument. -/
def raises_invalid_argument (r : List OsCall × Except cpp_error Nat) : Prop :=
  ∃ m, r.2 = Except.error (cpp_error.invalid_argument m)

/-- C5: construction via CreateOnly or CreateOrOpen throws an
invalid_argument exception exactly when the name is empty, the name
exceeds the length budget (MAX_PATH - 10 characters), max_instances is
zero, or max_instances exceeds PIPE_UNLIMITED_INSTANCES; and on every
such input the trace of native OS calls is empty, validation running
before any OS primitive. -/
theorem C5_validation_iff_and_before_os_calls (name : String) (mi : Nat)
    (cr : CreateResult) (opr : OpenResult) (undef : Bool) :
    (raises_invalid_argument (named_pipe_create_only name mi cr) ↔
      create_args_invalid name mi) ∧
    (raises_invalid_argument (named_pipe_create_or_open name mi cr opr undef) ↔
      create_args_invalid name mi) ∧
    (create_args_invalid name mi →
      (named_pipe_create_only name mi cr).1 = [] ∧
      (named_pipe_create_or_open name mi cr opr undef).1 = []) := by
  cases hval : validate_create_param name mi with
  | error m =>
    have hinv : create_args_invalid name mi := by
      rw [← validate_create_param_error_iff name mi]
      simp [isArgError, hval]
    refine ⟨?_, ?_, ?_⟩ <;>
      simp [named_pipe_create_only, named_pipe_create_or_open, hval,
            raises_invalid_argument, hinv]
  | ok u =>
    have hninv : ¬ create_args_invalid name mi := by
      rw [← validate_create_param_error_iff name mi]
      simp [isArgError, hval]
    rcases create_logic_cases cr with hc | hc <;>
      rcases open_logic_cases opr with ho | ho <;>
      cases undef <;>
      refine ⟨?_, ?_, ?_⟩ <;>
      simp [named_pipe_create_only, named_pipe_create_or_open, hval, hc, ho,
            raises_invalid_argument, hninv]

/-- C5 witness: the empty name trips validation in both construction
modes with an empty OS-call trace. -/
theorem C5_witness :
    (named_pipe_create_only "" 1 { handle := 1, lastError := 0 }).1 = [] ∧
    (named_pipe_create_or_open "" 1 { handle := 1, lastError := 0 }
      { handle := 1, lastError := 0 } true).1 = [] :=
  (C5_validation_iff_and_before_os_calls "" 1 { handle := 1, lastError := 0 }
    { handle := 1, lastError := 0 } true).2.2 (by decide)

/-- A name of exactly MAX_PATH - 9 characters. -/
def name_251 : String := String.mk (List.replicate 251 'a')

set_option maxRecDepth 4096 in
/-- C7 counterexample: the name of exactly (MAX_PATH - 9) = 251
characters, which the claim says passes validation in every mode, is
rejected by both validation routines (the code rejects length ≥
MAX_PATH - 9, not only length > MAX_PATH - 9). -/
theorem C7_boundary_name_rejected :
    name_251.length = MAX_PATH - 9 ∧
    isArgError (validate_create_param name_251 1) = true ∧
    isArgError (validate_open_param name_251) = true := by decide

/-- C7 (amended): every name of length 1 up to and including
(MAX_PATH - 10) characters passes name validation in all three modes
(create-only and create-or-open validate through validate_create_param,
open-only through validate_open_param); names of length 0 or at least
(MAX_PATH - 9) are rejected by both routines. -/
theorem C7_name_length_validation_range (name : String) (mi : Nat)
    (hmi1 : 1 ≤ mi) (hmi2 : mi ≤ PIPE_UNLIMITED_INSTANCES) :
    (1 ≤ name.length ∧ name.length ≤ MAX_PATH - 10 →
      validate_create_param name mi = Except.ok () ∧
      validate_open_param name = Except.ok ()) ∧
    (name.length = 0 ∨ name.length ≥ MAX_PATH - 9 →
      isArgError (validate_create_param name mi) = true ∧
      isArgError (validate_open_param name) = true) := by
  unfold validate_create_param validate_open_param isArgError
    MAX_PATH_MINUS_9 MAX_PATH PIPE_UNLIMITED_INSTANCES at *
  constructor
  · rintro ⟨h1, h2⟩
    split_ifs <;> first | exact ⟨rfl, rfl⟩ | omega
  · intro h
    split_ifs <;> first | exact ⟨rfl, rfl⟩ | omega

/-- C7 witness: the one-character name "a" passes both validation
routines with max_instances 1. -/
theorem C7_witness :
    validate_create_param "a" 1 = Except.ok () ∧
    validate_open_param "a" = Except.ok () :=
  (C7_name_length_validation_range "a" 1 (by decide) (by decide)).1
    (by decide)

/-- INVALID_HANDLE_VALUE, the failure return of CreateNamedPipeW:
(HANDLE)-1 as an unsigned 64-bit value. -/
def INVALID_HANDLE_VALUE : Nat := 18446744073709551615

/-- C1: when native creation fails because the name is already held by
a unique instance (CreateNamedPipeW yields INVALID_HANDLE_VALUE with
last error ERROR_ACCESS_DENIED), CreateOnly throws the runtime_error —
as the claim says — but CreateOrOpen throws the very same runtime_error
instead of falling back to open: create_logic throws on every failure
and never returns false, so the open_logic branch is unreachable, for
every open oracle and every value of the undefined tested bool; the
trace never contains a CreateFileW call. -/
theorem C1_create_or_open_never_falls_back (opr : OpenResult)
    (undef : Bool) :
    (named_pipe_create_only "existing" 1
        { handle := INVALID_HANDLE_VALUE,
          lastError := ERROR_ACCESS_DENIED }).2 =
      Except.error (cpp_error.runtime_error "Creating Named Pipe failed") ∧
    named_pipe_create_or_open "existing" 1
        { handle := INVALID_HANDLE_VALUE,
          lastError := ERROR_ACCESS_DENIED } opr undef =
      ([OsCall.createNamedPipe (wide_name "existing")],
       Except.error (cpp_error.runtime_error "Creating Named Pipe failed")) := by
  have hval : validate_create_param "existing" 1 = Except.ok () := by rfl
  have hcl : create_logic
      { handle := INVALID_HANDLE_VALUE, lastError := ERROR_ACCESS_DENIED } =
      Except.error (cpp_error.runtime_error "Creating Named Pipe failed") := by
    rfl
  simp [named_pipe_create_only, named_pipe_create_or_open, hval, hcl]
